import Mathlib

/-!
Verification of the criticality/health scoring engine of the ONCF
"Atelier Connecté" dashboard (`app.py`).

Embedding conventions:
* SQLite tables are embedded as Lean lists of records; the database is a
  structure holding the five tables the core touches.
* ISO-8601 timestamps compare lexicographically, which for the fixed format
  used by `now_iso` coincides with chronological order; they are embedded as
  integers measured in days, so `days_ago_iso(d)` becomes `now - d`.
* Python float arithmetic is idealised as exact rational arithmetic (`ℚ`);
  Python's `round`, which rounds halves to the nearest even integer, is
  embedded as `pyRound`.
* `compute_criticite_calc` reads the wall clock through
  `count_similar_recent`; the embedding passes the current time `now`
  explicitly.
-/

namespace Oncf

/-- Python's `round`: nearest integer, halves to the even neighbour. -/
def pyRound (q : ℚ) : ℤ :=
  if q - ⌊q⌋ < 1/2 then ⌊q⌋
  else if 1/2 < q - ⌊q⌋ then ⌊q⌋ + 1
  else if Even ⌊q⌋ then ⌊q⌋ else ⌊q⌋ + 1

theorem floor_le_pyRound (q : ℚ) : ⌊q⌋ ≤ pyRound q := by
  unfold pyRound; split_ifs <;> omega

theorem pyRound_le_floor_add_one (q : ℚ) : pyRound q ≤ ⌊q⌋ + 1 := by
  unfold pyRound; split_ifs <;> omega

theorem pyRound_mono {q r : ℚ} (h : q ≤ r) : pyRound q ≤ pyRound r := by
  rcases lt_or_le ⌊q⌋ ⌊r⌋ with hf | hf
  · calc pyRound q ≤ ⌊q⌋ + 1 := pyRound_le_floor_add_one q
    _ ≤ ⌊r⌋ := by omega
    _ ≤ pyRound r := floor_le_pyRound r
  · have hle : ⌊q⌋ = ⌊r⌋ := le_antisymm (Int.floor_le_floor h) hf
    unfold pyRound
    rw [hle]
    split_ifs <;> first | omega | linarith

theorem pyRound_zero : pyRound (0 : ℚ) = 0 := by norm_num [pyRound]

theorem pyRound_hundred : pyRound (100 : ℚ) = 100 := by norm_num [pyRound]

/-- Clamping to the integer interval `[0,100]` commutes with rounding. -/
theorem clamp_pyRound (q : ℚ) :
    max 0 (min 100 (pyRound q)) = pyRound (max 0 (min 100 q)) := by
  rcases le_or_lt q 0 with h0 | h0
  · have hq : max 0 (min 100 q) = 0 := by
      rw [min_eq_right (by linarith : q ≤ 100)]
      exact max_eq_left h0
    have hr : pyRound q ≤ 0 := by
      have := pyRound_mono h0
      rwa [pyRound_zero] at this
    rw [hq, pyRound_zero]
    omega
  · rcases le_or_lt q 100 with h1 | h1
    · have hq : max 0 (min 100 q) = q := by
        rw [min_eq_right h1]
        exact max_eq_right (le_of_lt h0)
      have hlo : 0 ≤ pyRound q := by
        have := pyRound_mono (le_of_lt h0)
        rwa [pyRound_zero] at this
      have hhi : pyRound q ≤ 100 := by
        have := pyRound_mono h1
        rwa [pyRound_hundred] at this
      rw [hq]
      omega
    · have hq : max 0 (min 100 q) = 100 := by
        rw [min_eq_left (le_of_lt h1)]
        norm_num
      have hr : 100 ≤ pyRound q := by
        have := pyRound_mono (le_of_lt h1)
        rwa [pyRound_hundred] at this
      rw [hq, pyRound_hundred]
      omega

/-! ## Data model: the five tables touched by the core (`init_db`). -/

/-- A row of the `trains` table. -/
structure Train where
  id_train : String
  modele : String
  date_mise_en_service : String
  km_total : ℤ
  etat_sante : ℤ
  derniere_visite : String
deriving Repr, DecidableEq

/-- A row of the `anomalies` table (`immobilisation` is stored as 0/1). -/
structure Anomaly where
  id : ℕ
  id_train : String
  technicien : String
  date_signalement : ℤ
  categorie : String
  composant : String
  description : String
  photo : String
  immobilisation : ℤ
  gravite : String
  criticite_calc : ℤ
  urgence : String
  statut : String
deriving Repr, DecidableEq

/-- A row of the `parts` table. -/
structure Part where
  ref : String
  designation : String
  qty : ℤ
  seuil_min : ℤ
  utilises : String
deriving Repr, DecidableEq

/-- A row of the `conformities` table. -/
structure Conformity where
  id : ℕ
  id_train : String
  date_intervention : ℤ
  technicien : String
  type_intervention : String
  composant : String
  piece_ref : String
  resultat : String
  observations : String
deriving Repr, DecidableEq

/-- The `components` table: `(name, criticite_max)` rows, `name` primary key. -/
abbrev Catalog := List (String × ℤ)

/-- The whole database state. -/
structure DB where
  trains : List Train
  components : Catalog
  parts : List Part
  anomalies : List Anomaly
  conformities : List Conformity
deriving Repr, DecidableEq

/-! ## Business logic: criticity (`compute_criticite_calc` and helpers). -/

/-- `days_ago_iso(days)` relative to the injected current time `now`. -/
def daysAgo (now days : ℤ) : ℤ := now - days

/-- `SELECT criticite_max FROM components WHERE name = ?` (primary-key lookup). -/
def lookupCriticite (cat : Catalog) (name : String) : Option ℤ :=
  (cat.find? (fun p => p.1 == name)).map (fun p => p.2)

/-- `get_component_criticite`: catalog value, default 50 if the name is absent. -/
def getComponentCriticite (cat : Catalog) (name : String) : ℤ :=
  match lookupCriticite cat name with
  | some v => v
  | none => 50

/-- `grav_map.get(gravite, 0.6)` with `{"Urgent":1.0, "Moyen":0.6, "Faible":0.3}`. -/
def gravMult (gravite : String) : ℚ :=
  if gravite = "Urgent" then 1
  else if gravite = "Moyen" then 3/5
  else if gravite = "Faible" then 3/10
  else 3/5

/-- `count_similar_recent`: anomalies of the same train and component reported
within the trailing `days` window. -/
def countSimilarRecent (anoms : List Anomaly) (now : ℤ) (train_id composant : String)
    (days : ℤ) : ℕ :=
  (anoms.filter (fun a =>
    a.id_train == train_id && a.composant == composant &&
      decide (daysAgo now days ≤ a.date_signalement))).length

/-- The score expression of `compute_criticite_calc` (lines 136-147), factored
over its four inputs: `criticite_max * (0.5 + 0.3*grav + 0.2*freq*imm)`,
rounded then clamped to `[0,100]`. -/
def criticiteFormula (criticite_max : ℤ) (grav : ℚ) (occ : ℕ) (immobilisation : Bool) : ℤ :=
  let freq_factor : ℚ := min 1 ((occ : ℚ) / 5)
  let imm : ℚ := if immobilisation then 1 else 3/5
  let score : ℚ := (criticite_max : ℚ) * (1/2 + 3/10 * grav + 1/5 * freq_factor * imm)
  max 0 (min 100 (pyRound score))

/-- `compute_criticite_calc(train_id, composant, gravite, immobilisation)`. -/
def computeCriticiteCalc (db : DB) (now : ℤ) (train_id composant gravite : String)
    (immobilisation : Bool) : ℤ :=
  criticiteFormula (getComponentCriticite db.components composant) (gravMult gravite)
    (countSimilarRecent db.anomalies now train_id composant 90) immobilisation

/-- The urgency label the anomaly-creation handler derives from the score
(line 306): `critique` if ≥ 80, else `moyenne` if ≥ 50, else `faible`. -/
def urgenceLabel (crit_calc : ℤ) : String :=
  if crit_calc ≥ 80 then "critique"
  else if crit_calc ≥ 50 then "moyenne"
  else "faible"

/-! ## Business logic: health (`recalc_train_health`). -/

/-- `SELECT criticite_calc FROM anomalies WHERE id_train=? AND
date_signalement>=?` — the rows fetched by `recalc_train_health`. -/
def windowCrits (anoms : List Anomaly) (now : ℤ) (train_id : String) (days_window : ℤ) :
    List ℤ :=
  (anoms.filter (fun a =>
    a.id_train == train_id && decide (daysAgo now days_window ≤ a.date_signalement))).map
    (fun a => a.criticite_calc)

/-- The aggregation of `recalc_train_health` (lines 162-173) over the fetched
`criticite_calc` values: 100 when empty, else
`round(max(0, min(100, 100 - (s/(n*100))*100)))`, with the (dead)
`max_possible == 0` guard kept from the source. -/
def healthFromCrits (rows : List ℤ) : ℤ :=
  if rows = [] then 100
  else
    let n : ℕ := rows.length
    let s : ℤ := rows.sum
    let max_possible : ℕ := n * 100
    if max_possible = 0 then 100
    else
      let fraction : ℚ := (s : ℚ) / (max_possible : ℚ)
      let health_f : ℚ := 100 - fraction * 100
      pyRound (max 0 (min 100 health_f))

/-- `recalc_train_health(train_id, days_window=90)`: computes the health from
the anomalies of the trailing window, persists it via
`UPDATE trains SET etat_sante=? WHERE id_train=?`, and returns it. -/
def recalcTrainHealth (db : DB) (now : ℤ) (train_id : String) (days_window : ℤ) :
    ℤ × DB :=
  let health := healthFromCrits (windowCrits db.anomalies now train_id days_window)
  (health,
    { db with
        trains := db.trains.map (fun tr =>
          if tr.id_train == train_id then { tr with etat_sante := health } else tr) })

/-- `UPDATE anomalies SET statut='résolu' WHERE id=?` from the
"Marquer comme résolu" handler (line 344). -/
def markResolu (anoms : List Anomaly) (anomaly_id : ℕ) : List Anomaly :=
  anoms.map (fun a => if a.id == anomaly_id then { a with statut := "résolu" } else a)

/-! ## Spec-side definitions (refinement targets, worded from `spec.md`). -/

/-- Spec wording (claim C1): severity multiplier "1.0 for Urgent, 0.6 for
Moyen, 0.3 for Faible" (only those three severities are described). -/
def spec_sev (severity : String) : ℚ :=
  if severity = "Urgent" then 1
  else if severity = "Moyen" then 3/5
  else 3/10

/-- Spec wording (claim C1):
`round(clamp(max_criticality * (0.5 + 0.3*sev + 0.2*freq*imm)))` with
`freq = min(1.0, occ/5.0)` and `imm = 1.0 if immobilization else 0.6`,
rounding to the nearest integer and clamping to `[0,100]`. -/
def spec_criticality (max_criticality : ℤ) (sev : ℚ) (occ : ℕ) (immobilization : Bool) :
    ℤ :=
  let freq : ℚ := min 1 ((occ : ℚ) / 5)
  let imm : ℚ := if immobilization then 1 else 3/5
  pyRound (max 0 (min 100 ((max_criticality : ℚ) * (1/2 + 3/10 * sev + 1/5 * freq * imm))))

/-- Spec wording (claim C2): 100 on an empty set, otherwise
`round(clamp(100 - (s/(n*100))*100, 0, 100))` with `n` the count and `s` the
sum of the `calculated_criticality` values. -/
def spec_health (crits : List ℤ) : ℤ :=
  if crits = [] then 100
  else
    pyRound (max 0 (min 100
      (100 - ((crits.sum : ℚ) / ((crits.length : ℚ) * 100)) * 100)))

/-- All fields of two anomaly records agree except possibly `statut`. -/
def eqExceptStatut (a b : Anomaly) : Prop :=
  a.id = b.id ∧ a.id_train = b.id_train ∧ a.technicien = b.technicien ∧
  a.date_signalement = b.date_signalement ∧ a.categorie = b.categorie ∧
  a.composant = b.composant ∧ a.description = b.description ∧ a.photo = b.photo ∧
  a.immobilisation = b.immobilisation ∧ a.gravite = b.gravite ∧
  a.criticite_calc = b.criticite_calc ∧ a.urgence = b.urgence

/-! ## Bridging lemmas. -/

theorem healthFromCrits_eq_spec (rows : List ℤ) :
    healthFromCrits rows = spec_health rows := by
  unfold healthFromCrits spec_health
  by_cases h : rows = []
  · simp [h]
  · have hlen : rows.length ≠ 0 := by
      simpa [List.length_eq_zero] using h
    have hguard : rows.length * 100 ≠ 0 := by omega
    simp only [h, if_false, hguard]
    congr 1
    push_cast
    ring_nf

/-- The fetched list is insensitive to the `statut` column. -/
theorem windowCrits_eqExceptStatut {l1 l2 : List Anomaly}
    (h : List.Forall₂ eqExceptStatut l1 l2) (now : ℤ) (t : String) (w : ℤ) :
    windowCrits l1 now t w = windowCrits l2 now t w := by
  induction h with
  | nil => rfl
  | cons ha hl ih =>
    rename_i a b l1' l2'
    obtain ⟨_, htr, _, hdt, _, _, _, _, _, _, hcc, _⟩ := ha
    unfold windowCrits at ih ⊢
    simp only [List.filter_cons, htr, hdt]
    split
    · simpa [hcc] using ih
    · exact ih

/-- `markResolu` changes at most the `statut` field of each row. -/
theorem markResolu_eqExceptStatut (anoms : List Anomaly) (i : ℕ) :
    List.Forall₂ eqExceptStatut anoms (markResolu anoms i) := by
  induction anoms with
  | nil => exact List.Forall₂.nil
  | cons a l ih =>
    refine List.Forall₂.cons ?_ ih
    show eqExceptStatut a (if a.id == i then { a with statut := "résolu" } else a)
    unfold eqExceptStatut
    split <;> simp

/-! ## Concrete data for witnesses (drawn from the `init_db` seed rows). -/

def trainZ01 : Train :=
  ⟨"Z2M-01", "Z2M", "2010-05-20", 450000, 100, ""⟩

def seedComponents : Catalog :=
  [("frein", 95), ("porte", 80), ("moteur", 90), ("climatisation", 40),
   ("compresseur", 85), ("batterie", 70), ("pantographe", 88)]

def mkAnomalie (id : ℕ) (t comp : String) (date crit : ℤ) (st : String) : Anomaly :=
  ⟨id, t, "tech", date, "mécanique", comp, "", "", 1, "Urgent", crit, "critique", st⟩

/-- Seed database: one train, the seed catalog, no anomalies. -/
def dbSeed : DB := ⟨[trainZ01], seedComponents, [], [], []⟩

/-- Six recent "frein" anomalies on the same train (at `now = 100`, window 90,
all dates ≥ 10 fall inside the window). -/
def dbSix : DB :=
  ⟨[trainZ01], seedComponents, [],
   [mkAnomalie 1 "Z2M-01" "frein" 20 76 "à traiter",
    mkAnomalie 2 "Z2M-01" "frein" 30 76 "à traiter",
    mkAnomalie 3 "Z2M-01" "frein" 40 76 "à traiter",
    mkAnomalie 4 "Z2M-01" "frein" 50 76 "à traiter",
    mkAnomalie 5 "Z2M-01" "frein" 60 76 "à traiter",
    mkAnomalie 6 "Z2M-01" "frein" 70 76 "à traiter"], []⟩

/-- Two recent anomalies with `criticite_calc` 80 and 40 on the same train. -/
def dbPair : DB :=
  ⟨[trainZ01], seedComponents, [],
   [mkAnomalie 1 "Z2M-01" "frein" 50 80 "à traiter",
    mkAnomalie 2 "Z2M-01" "porte" 60 40 "à traiter"], []⟩

/-! ## Claims. -/

/-- C1: for every train, component, severity among Urgent/Moyen/Faible and
immobilization flag, `compute_criticite_calc` returns
`round(clamp(max_criticality * (0.5 + 0.3*sev + 0.2*freq*imm)))` with
`max_criticality` the catalog value, `sev` the claimed severity multiplier,
`freq = min(1, occ/5)` over the trailing-90-days occurrence count, and
`imm = 1.0` when immobilized else `0.6`, clamped to `[0,100]`. -/
theorem c1_compute_criticality_formula (db : DB) (now : ℤ)
    (train_id composant gravite : String) (immobilisation : Bool) (m : ℤ)
    (hcat : lookupCriticite db.components composant = some m)
    (hgrav : gravite = "Urgent" ∨ gravite = "Moyen" ∨ gravite = "Faible") :
    computeCriticiteCalc db now train_id composant gravite immobilisation =
      spec_criticality m (spec_sev gravite)
        (countSimilarRecent db.anomalies now train_id composant 90) immobilisation := by
  have hm : getComponentCriticite db.components composant = m := by
    unfold getComponentCriticite
    rw [hcat]
  have hg : gravMult gravite = spec_sev gravite := by
    rcases hgrav with h | h | h <;> simp [gravMult, spec_sev, h]
  simp only [computeCriticiteCalc, criticiteFormula, spec_criticality, hm, hg]
  exact clamp_pyRound _

/-- C1 witness: the two worked examples of the spec — `max_criticality = 95`
(frein), Urgent, no prior occurrence, immobilized gives 76; and Faible with six
prior occurrences, not immobilized, gives 67. -/
theorem c1_compute_criticality_formula_witness :
    lookupCriticite dbSeed.components "frein" = some 95 ∧
    computeCriticiteCalc dbSeed 100 "Z2M-01" "frein" "Urgent" true = 76 ∧
    computeCriticiteCalc dbSix 100 "Z2M-01" "frein" "Faible" false = 67 := by
  refine ⟨rfl, ?_, ?_⟩
  · rw [c1_compute_criticality_formula dbSeed 100 "Z2M-01" "frein" "Urgent" true 95 rfl
      (Or.inl rfl)]
    have hocc : countSimilarRecent dbSeed.anomalies 100 "Z2M-01" "frein" 90 = 0 := rfl
    rw [hocc, show spec_sev "Urgent" = 1 from rfl]
    norm_num [spec_criticality, pyRound, min_def, max_def]
  · rw [c1_compute_criticality_formula dbSix 100 "Z2M-01" "frein" "Faible" false 95 rfl
      (Or.inr (Or.inr rfl))]
    have hocc : countSimilarRecent dbSix.anomalies 100 "Z2M-01" "frein" 90 = 6 := rfl
    rw [hocc, show spec_sev "Faible" = 3/10 from rfl]
    norm_num [spec_criticality, pyRound, min_def, max_def]

/-- C3: for every input combination — any train, any component (present or
absent from the catalog, with any stored value), any severity string, any flag
and any anomaly history — `compute_criticite_calc` returns an integer in
`[0,100]`. -/
theorem c3_output_in_range (db : DB) (now : ℤ) (train_id composant gravite : String)
    (immobilisation : Bool) :
    0 ≤ computeCriticiteCalc db now train_id composant gravite immobilisation ∧
    computeCriticiteCalc db now train_id composant gravite immobilisation ≤ 100 := by
  unfold computeCriticiteCalc criticiteFormula
  exact ⟨le_max_left _ _, max_le (by norm_num) (min_le_left _ _)⟩

/-- C3 witness: a concrete evaluation point of the range theorem. -/
theorem c3_output_in_range_witness :
    0 ≤ computeCriticiteCalc dbSeed 100 "Z2M-01" "frein" "Urgent" true ∧
    computeCriticiteCalc dbSeed 100 "Z2M-01" "frein" "Urgent" true ≤ 100 :=
  c3_output_in_range dbSeed 100 "Z2M-01" "frein" "Urgent" true

/-- C4: `compute_criticite_calc` is total on unknown inputs, each fallback
independently of the other: for every severity and flag, an absent component
falls back to `max_criticality = 50`; and for every component and flag, a
severity outside Urgent/Moyen/Faible falls back to the Moyen multiplier
`0.6`; in both cases the computation proceeds to a normal in-range result. -/
theorem c4_soft_defaults :
    (∀ (db : DB) (now : ℤ) (train_id composant gravite : String)
        (immobilisation : Bool),
      lookupCriticite db.components composant = none →
        getComponentCriticite db.components composant = 50 ∧
        computeCriticiteCalc db now train_id composant gravite immobilisation =
          criticiteFormula 50 (gravMult gravite)
            (countSimilarRecent db.anomalies now train_id composant 90) immobilisation ∧
        0 ≤ computeCriticiteCalc db now train_id composant gravite immobilisation ∧
        computeCriticiteCalc db now train_id composant gravite immobilisation ≤ 100) ∧
    (∀ (db : DB) (now : ℤ) (train_id composant gravite : String)
        (immobilisation : Bool),
      gravite ≠ "Urgent" → gravite ≠ "Moyen" → gravite ≠ "Faible" →
        gravMult gravite = 3/5 ∧ gravMult "Moyen" = 3/5 ∧
        computeCriticiteCalc db now train_id composant gravite immobilisation =
          criticiteFormula (getComponentCriticite db.components composant) (3/5)
            (countSimilarRecent db.anomalies now train_id composant 90) immobilisation ∧
        0 ≤ computeCriticiteCalc db now train_id composant gravite immobilisation ∧
        computeCriticiteCalc db now train_id composant gravite immobilisation ≤ 100) := by
  constructor
  · intro db now train_id composant gravite immobilisation hcat
    have hm : getComponentCriticite db.components composant = 50 := by
      unfold getComponentCriticite
      rw [hcat]
    refine ⟨hm, ?_, ?_⟩
    · simp only [computeCriticiteCalc, hm]
    · unfold computeCriticiteCalc criticiteFormula
      exact ⟨le_max_left _ _, max_le (by norm_num) (min_le_left _ _)⟩
  · intro db now train_id composant gravite immobilisation h1 h2 h3
    have hg : gravMult gravite = 3/5 := by
      simp [gravMult, h1, h2, h3]
    refine ⟨hg, by simp [gravMult], ?_, ?_⟩
    · simp only [computeCriticiteCalc, hg]
    · unfold computeCriticiteCalc criticiteFormula
      exact ⟨le_max_left _ _, max_le (by norm_num) (min_le_left _ _)⟩

/-- C4 witness: each fallback exercised on its own — component "essieu" is
absent from the seed catalog while the severity is the known "Urgent", and
severity "Critique" is unknown while the component is the cataloged
"frein". -/
theorem c4_soft_defaults_witness :
    (getComponentCriticite dbSeed.components "essieu" = 50 ∧
     computeCriticiteCalc dbSeed 100 "Z2M-01" "essieu" "Urgent" true =
       criticiteFormula 50 (gravMult "Urgent")
         (countSimilarRecent dbSeed.anomalies 100 "Z2M-01" "essieu" 90) true ∧
     0 ≤ computeCriticiteCalc dbSeed 100 "Z2M-01" "essieu" "Urgent" true ∧
     computeCriticiteCalc dbSeed 100 "Z2M-01" "essieu" "Urgent" true ≤ 100) ∧
    (gravMult "Critique" = 3/5 ∧ gravMult "Moyen" = 3/5 ∧
     computeCriticiteCalc dbSeed 100 "Z2M-01" "frein" "Critique" false =
       criticiteFormula (getComponentCriticite dbSeed.components "frein") (3/5)
         (countSimilarRecent dbSeed.anomalies 100 "Z2M-01" "frein" 90) false ∧
     0 ≤ computeCriticiteCalc dbSeed 100 "Z2M-01" "frein" "Critique" false ∧
     computeCriticiteCalc dbSeed 100 "Z2M-01" "frein" "Critique" false ≤ 100) :=
  ⟨c4_soft_defaults.1 dbSeed 100 "Z2M-01" "essieu" "Urgent" true rfl,
   c4_soft_defaults.2 dbSeed 100 "Z2M-01" "frein" "Critique" false
     (by decide) (by decide) (by decide)⟩

/-- C7: the urgency label derived from a computed criticality score is
`critique` iff the score is ≥ 80, `moyenne` iff it is in `[50, 80)`, and
`faible` iff it is < 50. -/
theorem c7_urgency_label (db : DB) (now : ℤ) (train_id composant gravite : String)
    (immobilisation : Bool) :
    (urgenceLabel (computeCriticiteCalc db now train_id composant gravite immobilisation) =
        "critique" ↔
      80 ≤ computeCriticiteCalc db now train_id composant gravite immobilisation) ∧
    (urgenceLabel (computeCriticiteCalc db now train_id composant gravite immobilisation) =
        "moyenne" ↔
      50 ≤ computeCriticiteCalc db now train_id composant gravite immobilisation ∧
        computeCriticiteCalc db now train_id composant gravite immobilisation < 80) ∧
    (urgenceLabel (computeCriticiteCalc db now train_id composant gravite immobilisation) =
        "faible" ↔
      computeCriticiteCalc db now train_id composant gravite immobilisation < 50) := by
  have key : ∀ s : ℤ, (urgenceLabel s = "critique" ↔ 80 ≤ s) ∧
      (urgenceLabel s = "moyenne" ↔ 50 ≤ s ∧ s < 80) ∧
      (urgenceLabel s = "faible" ↔ s < 50) := by
    intro s
    unfold urgenceLabel
    split_ifs with h1 h2 <;> refine ⟨⟨?_, ?_⟩, ⟨?_, ?_⟩, ⟨?_, ?_⟩⟩ <;>
      first
        | (intro h; simp_all; omega)
        | (intro h; simp_all)
  exact key _

/-- C7 witness: a concrete evaluation point of the urgency-label theorem. -/
theorem c7_urgency_label_witness :
    (urgenceLabel (computeCriticiteCalc dbSeed 100 "Z2M-01" "frein" "Urgent" true) =
        "critique" ↔
      80 ≤ computeCriticiteCalc dbSeed 100 "Z2M-01" "frein" "Urgent" true) ∧
    (urgenceLabel (computeCriticiteCalc dbSeed 100 "Z2M-01" "frein" "Urgent" true) =
        "moyenne" ↔
      50 ≤ computeCriticiteCalc dbSeed 100 "Z2M-01" "frein" "Urgent" true ∧
        computeCriticiteCalc dbSeed 100 "Z2M-01" "frein" "Urgent" true < 80) ∧
    (urgenceLabel (computeCriticiteCalc dbSeed 100 "Z2M-01" "frein" "Urgent" true) =
        "faible" ↔
      computeCriticiteCalc dbSeed 100 "Z2M-01" "frein" "Urgent" true < 50) :=
  c7_urgency_label dbSeed 100 "Z2M-01" "frein" "Urgent" true

/-- On a non-empty row set the aggregation reduces to
`round(clamp(100 - average))`, the average being `sum/length`. -/
theorem healthFromCrits_avg {rows : List ℤ} (hne : rows ≠ []) :
    healthFromCrits rows =
      pyRound (max 0 (min 100 (100 - (rows.sum : ℚ) / (rows.length : ℚ)))) := by
  have hlen : rows.length ≠ 0 := by
    simpa [List.length_eq_zero] using hne
  have hguard : rows.length * 100 ≠ 0 := by omega
  have hq : (rows.length : ℚ) ≠ 0 := by exact_mod_cast hlen
  unfold healthFromCrits
  simp only [hne, if_false, hguard]
  congr 1
  have hcast : ((rows.length * 100 : ℕ) : ℚ) = (rows.length : ℚ) * 100 := by
    push_cast
    ring
  have harg : (rows.sum : ℚ) / ((rows.length : ℚ) * 100) * 100 =
      (rows.sum : ℚ) / (rows.length : ℚ) := by
    field_simp
    ring
  rw [hcast, harg]

/-- C2: for every train and window, `recalc_train_health` returns 100 on an
empty window and otherwise `round(clamp(100 - (s/(n*100))*100, 0, 100))`, and
the returned value is exactly what is persisted into the train's
`etat_sante` field. -/
theorem c2_recompute_health (db : DB) (now : ℤ) (train_id : String) (days_window : ℤ) :
    (recalcTrainHealth db now train_id days_window).1 =
      spec_health (windowCrits db.anomalies now train_id days_window) ∧
    ∀ tr ∈ (recalcTrainHealth db now train_id days_window).2.trains,
      tr.id_train = train_id →
        tr.etat_sante = (recalcTrainHealth db now train_id days_window).1 := by
  constructor
  · exact healthFromCrits_eq_spec _
  · intro tr hmem heq
    simp only [recalcTrainHealth, List.mem_map] at hmem
    obtain ⟨tr0, _, rfl⟩ := hmem
    by_cases hb : tr0.id_train == train_id
    · simp [recalcTrainHealth, hb]
    · rw [if_neg hb] at heq ⊢
      rw [beq_iff_eq] at hb
      exact absurd heq hb

/-- C2 witness: the worked example — two recent anomalies with
`criticite_calc` 80 and 40 give health 40, persisted on the train — and a
train with no recent anomaly gets health 100. -/
theorem c2_recompute_health_witness :
    (recalcTrainHealth dbPair 100 "Z2M-01" 90).1 =
      spec_health (windowCrits dbPair.anomalies 100 "Z2M-01" 90) ∧
    (recalcTrainHealth dbPair 100 "Z2M-01" 90).1 = 40 ∧
    (∀ tr ∈ (recalcTrainHealth dbPair 100 "Z2M-01" 90).2.trains,
      tr.id_train = "Z2M-01" → tr.etat_sante = (recalcTrainHealth dbPair 100 "Z2M-01" 90).1) ∧
    (recalcTrainHealth dbSeed 100 "Z2M-01" 90).1 = 100 := by
  refine ⟨(c2_recompute_health dbPair 100 "Z2M-01" 90).1, ?_,
    (c2_recompute_health dbPair 100 "Z2M-01" 90).2, ?_⟩
  · rw [(c2_recompute_health dbPair 100 "Z2M-01" 90).1,
      show windowCrits dbPair.anomalies 100 "Z2M-01" 90 = [80, 40] from rfl]
    unfold spec_health
    rw [if_neg (by simp : ¬([80, 40] : List ℤ) = [])]
    norm_num [pyRound, min_def, max_def]
  · rw [(c2_recompute_health dbSeed 100 "Z2M-01" 90).1,
      show windowCrits dbSeed.anomalies 100 "Z2M-01" 90 = [] from rfl]
    rfl

/-- C5: the health of a non-empty anomaly set depends only on the average of
its `criticite_calc` values: replacing the fetched set by `k ≥ 1` copies of
itself leaves `healthFromCrits` unchanged. -/
theorem c5_health_ignores_count (rows : List ℤ) (k : ℕ) (hne : rows ≠ [])
    (hk : 1 ≤ k) :
    healthFromCrits (List.replicate k rows).flatten = healthFromCrits rows := by
  have hsum : ∀ j : ℕ, (List.replicate j rows).flatten.sum = j * rows.sum := by
    intro j
    induction j with
    | zero => simp
    | succ n ih =>
      simp only [List.replicate_succ, List.flatten_cons, List.sum_append, ih]
      push_cast
      ring
  have hlen : ∀ j : ℕ, (List.replicate j rows).flatten.length = j * rows.length := by
    intro j
    induction j with
    | zero => simp
    | succ n ih =>
      simp only [List.replicate_succ, List.flatten_cons, List.length_append, ih]
      ring
  have hlen0 : rows.length ≠ 0 := by
    simpa [List.length_eq_zero] using hne
  have hne2 : (List.replicate k rows).flatten ≠ [] := by
    have : (List.replicate k rows).flatten.length ≠ 0 := by
      rw [hlen k]
      positivity
    simpa [List.length_eq_zero] using this
  rw [healthFromCrits_avg hne, healthFromCrits_avg hne2, hsum k, hlen k]
  congr 2
  have hkq : (k : ℚ) ≠ 0 := by
    exact_mod_cast Nat.one_le_iff_ne_zero.mp hk
  push_cast
  rw [mul_div_mul_left _ _ hkq]

/-- C5 witness: one anomaly of criticality 100 and ten copies of it produce
the same health, namely 0. -/
theorem c5_health_ignores_count_witness :
    healthFromCrits (List.replicate 10 [(100 : ℤ)]).flatten = healthFromCrits [(100 : ℤ)] ∧
    healthFromCrits [(100 : ℤ)] = 0 := by
  refine ⟨c5_health_ignores_count [(100 : ℤ)] 10 (by simp) (by norm_num), ?_⟩
  rw [healthFromCrits_avg (by simp : [(100 : ℤ)] ≠ [])]
  norm_num [pyRound, min_def, max_def]

/-- C6: health is monotonically non-increasing in each individual anomaly's
criticality: raising one fetched `criticite_calc` (all others fixed) never
raises the aggregated health. -/
theorem c6_health_antitone (pre post : List ℤ) (a b : ℤ) (hab : a ≤ b) :
    healthFromCrits (pre ++ b :: post) ≤ healthFromCrits (pre ++ a :: post) := by
  have hneA : pre ++ a :: post ≠ [] := by simp
  have hneB : pre ++ b :: post ≠ [] := by simp
  rw [healthFromCrits_avg hneA, healthFromCrits_avg hneB]
  apply pyRound_mono
  have hlen : (pre ++ b :: post).length = (pre ++ a :: post).length := by simp
  rw [hlen]
  have hlpos : (0 : ℚ) < ((pre ++ a :: post).length : ℚ) := by
    have : 0 < (pre ++ a :: post).length := by simp
    exact_mod_cast this
  have hsum : ((pre ++ a :: post).sum : ℚ) ≤ ((pre ++ b :: post).sum : ℚ) := by
    have : (pre ++ a :: post).sum ≤ (pre ++ b :: post).sum := by
      simp only [List.sum_append, List.sum_cons]
      omega
    exact_mod_cast this
  have hdiv := (div_le_div_iff_of_pos_right hlpos).mpr hsum
  exact max_le_max (le_refl 0) (min_le_min (le_refl 100) (by linarith))

/-- C6 witness: raising a single criticality from 50 to 100 (other anomaly
fixed at 40) does not raise the health. -/
theorem c6_health_antitone_witness :
    healthFromCrits [40, 100] ≤ healthFromCrits [40, 50] :=
  c6_health_antitone [40] [] 50 100 (by norm_num)

/-- C9: when every fetched `criticite_calc` lies in `[0,100]`, the clamp of
`100 - fraction*100` to `[0,100]` is the identity, and the
`max_possible == 0` guard of `recalc_train_health` is unreachable: the
non-empty branch computes the bare rounded value. -/
theorem c9_clamp_identity_guard_dead (rows : List ℤ) (hne : rows ≠ [])
    (hb : ∀ x ∈ rows, 0 ≤ x ∧ x ≤ 100) :
    rows.length * 100 ≠ 0 ∧
    max 0 (min 100 ((100 : ℚ) - (rows.sum : ℚ) / ((rows.length : ℚ) * 100) * 100)) =
      (100 : ℚ) - (rows.sum : ℚ) / ((rows.length : ℚ) * 100) * 100 ∧
    healthFromCrits rows =
      pyRound ((100 : ℚ) - (rows.sum : ℚ) / ((rows.length : ℚ) * 100) * 100) := by
  have hlen : rows.length ≠ 0 := by
    simpa [List.length_eq_zero] using hne
  have hlq : (0 : ℚ) < (rows.length : ℚ) * 100 := by
    have : 0 < rows.length := Nat.pos_of_ne_zero hlen
    have : (0 : ℚ) < (rows.length : ℚ) := by exact_mod_cast this
    linarith
  have hs0 : (0 : ℚ) ≤ (rows.sum : ℚ) := by
    have : (0 : ℤ) ≤ rows.sum := List.sum_nonneg fun x hx => (hb x hx).1
    exact_mod_cast this
  have hs1 : (rows.sum : ℚ) ≤ (rows.length : ℚ) * 100 := by
    have h := List.sum_le_card_nsmul rows 100 fun x hx => (hb x hx).2
    have : rows.sum ≤ (rows.length : ℤ) * 100 := by
      simpa [nsmul_eq_mul] using h
    exact_mod_cast this
  have hfrac0 : (0 : ℚ) ≤ (rows.sum : ℚ) / ((rows.length : ℚ) * 100) :=
    div_nonneg hs0 (le_of_lt hlq)
  have hfrac1 : (rows.sum : ℚ) / ((rows.length : ℚ) * 100) ≤ 1 :=
    (div_le_one hlq).mpr hs1
  have hclamp : max 0 (min 100 ((100 : ℚ) - (rows.sum : ℚ) / ((rows.length : ℚ) * 100) * 100)) =
      (100 : ℚ) - (rows.sum : ℚ) / ((rows.length : ℚ) * 100) * 100 := by
    rw [min_eq_right (by nlinarith), max_eq_right (by nlinarith)]
  refine ⟨by omega, hclamp, ?_⟩
  unfold healthFromCrits
  simp only [hne, if_false, show rows.length * 100 ≠ 0 by omega]
  have hcast : ((rows.length * 100 : ℕ) : ℚ) = (rows.length : ℚ) * 100 := by
    push_cast
    ring
  rw [hcast, hclamp]

/-- C9 witness: the fetched values 30 and 80 lie in `[0,100]`; the guard is
dead and the clamp is the identity there. -/
theorem c9_clamp_identity_guard_dead_witness :
    ([30, 80] : List ℤ).length * 100 ≠ 0 ∧
    max 0 (min 100 ((100 : ℚ) - (([30, 80] : List ℤ).sum : ℚ) /
        ((([30, 80] : List ℤ).length : ℚ) * 100) * 100)) =
      (100 : ℚ) - (([30, 80] : List ℤ).sum : ℚ) /
        ((([30, 80] : List ℤ).length : ℚ) * 100) * 100 ∧
    healthFromCrits [30, 80] =
      pyRound ((100 : ℚ) - (([30, 80] : List ℤ).sum : ℚ) /
        ((([30, 80] : List ℤ).length : ℚ) * 100) * 100) :=
  c9_clamp_identity_guard_dead [30, 80] (by simp) (by decide)

/-- C8: the health computed by `recalc_train_health` never depends on the
`statut` column: any two anomaly tables equal except for `statut` yield the
same health for every train and window; in particular the recomputation
triggered by "Marquer comme résolu" (which only rewrites `statut`) returns
the same health as before the update. -/
theorem c8_health_ignores_statut :
    (∀ (db1 db2 : DB) (now : ℤ) (train_id : String) (days_window : ℤ),
      List.Forall₂ eqExceptStatut db1.anomalies db2.anomalies →
        (recalcTrainHealth db1 now train_id days_window).1 =
          (recalcTrainHealth db2 now train_id days_window).1) ∧
    (∀ (db : DB) (anomaly_id : ℕ) (now : ℤ) (train_id : String) (days_window : ℤ),
      (recalcTrainHealth { db with anomalies := markResolu db.anomalies anomaly_id }
          now train_id days_window).1 =
        (recalcTrainHealth db now train_id days_window).1) := by
  have key : ∀ (db1 db2 : DB) (now : ℤ) (train_id : String) (days_window : ℤ),
      List.Forall₂ eqExceptStatut db1.anomalies db2.anomalies →
        (recalcTrainHealth db1 now train_id days_window).1 =
          (recalcTrainHealth db2 now train_id days_window).1 := by
    intro db1 db2 now train_id days_window h
    show healthFromCrits (windowCrits db1.anomalies now train_id days_window) =
      healthFromCrits (windowCrits db2.anomalies now train_id days_window)
    rw [windowCrits_eqExceptStatut h now train_id days_window]
  refine ⟨key, ?_⟩
  intro db anomaly_id now train_id days_window
  exact (key db { db with anomalies := markResolu db.anomalies anomaly_id } now train_id
    days_window (markResolu_eqExceptStatut db.anomalies anomaly_id)).symm

/-- C8 witness: marking the first anomaly of the two-anomaly table as resolved
leaves the recomputed health unchanged. -/
theorem c8_health_ignores_statut_witness :
    (recalcTrainHealth { dbPair with anomalies := markResolu dbPair.anomalies 1 }
        100 "Z2M-01" 90).1 =
      (recalcTrainHealth dbPair 100 "Z2M-01" 90).1 :=
  c8_health_ignores_statut.2 dbPair 1 100 "Z2M-01" 90

/-- C10: `recalc_train_health` writes nothing but the `etat_sante` field of
the rows of `trains` whose `id_train` matches: the other four tables are
untouched, every non-matching train row is unchanged, and a matching row
keeps all its other fields and receives the returned health. -/
theorem c10_frame (db : DB) (now : ℤ) (train_id : String) (days_window : ℤ) :
    (recalcTrainHealth db now train_id days_window).2.components = db.components ∧
    (recalcTrainHealth db now train_id days_window).2.parts = db.parts ∧
    (recalcTrainHealth db now train_id days_window).2.anomalies = db.anomalies ∧
    (recalcTrainHealth db now train_id days_window).2.conformities = db.conformities ∧
    List.Forall₂ (fun tr tr' =>
        (tr.id_train ≠ train_id → tr' = tr) ∧
        (tr.id_train = train_id →
          tr'.id_train = tr.id_train ∧ tr'.modele = tr.modele ∧
          tr'.date_mise_en_service = tr.date_mise_en_service ∧
          tr'.km_total = tr.km_total ∧ tr'.derniere_visite = tr.derniere_visite ∧
          tr'.etat_sante = (recalcTrainHealth db now train_id days_window).1))
      db.trains (recalcTrainHealth db now train_id days_window).2.trains := by
  refine ⟨rfl, rfl, rfl, rfl, ?_⟩
  show List.Forall₂ _ db.trains (db.trains.map _)
  have : ∀ l : List Train, List.Forall₂ (fun tr tr' =>
      (tr.id_train ≠ train_id → tr' = tr) ∧
      (tr.id_train = train_id →
        tr'.id_train = tr.id_train ∧ tr'.modele = tr.modele ∧
        tr'.date_mise_en_service = tr.date_mise_en_service ∧
        tr'.km_total = tr.km_total ∧ tr'.derniere_visite = tr.derniere_visite ∧
        tr'.etat_sante = (recalcTrainHealth db now train_id days_window).1))
      l (l.map (fun tr =>
        if tr.id_train == train_id then
          { tr with etat_sante :=
              healthFromCrits (windowCrits db.anomalies now train_id days_window) }
        else tr)) := by
    intro l
    induction l with
    | nil => exact List.Forall₂.nil
    | cons tr l ih =>
      refine List.Forall₂.cons ⟨?_, ?_⟩ ih
      · intro hne
        dsimp only
        rw [if_neg (by simpa [beq_iff_eq] using hne)]
      · intro heq
        dsimp only
        rw [if_pos (by simpa [beq_iff_eq] using heq)]
        exact ⟨rfl, rfl, rfl, rfl, rfl, rfl⟩
  exact this db.trains

/-- C10 witness: on the two-anomaly database the call leaves the anomaly
table untouched. -/
theorem c10_frame_witness :
    (recalcTrainHealth dbPair 100 "Z2M-01" 90).2.anomalies = dbPair.anomalies :=
  (c10_frame dbPair 100 "Z2M-01" 90).2.2.1

end Oncf
